import Mathlib

/-
Verification of the synphony video-augmentation scripts.

The Python sources are shallowly embedded: pure string/path manipulation is
translated directly; every external effect (subprocess invocations, the
filesystem, the OpenAI service, exceptions raised by library calls) is
supplied through explicit oracle/environment records.  Python exceptions are
modelled as `Except String` values; the filesystem as an association list
from paths to file sizes.
-/

/-! ## Python string primitives -/

/-- Whitespace characters removed by Python's `str.strip()`. -/
def pyIsSpace (c : Char) : Bool :=
  c = ' ' || c = '\t' || c = '\n' || c = '\r' || c = Char.ofNat 11 || c = Char.ofNat 12

/-- ASCII decimal digit (what `int()` accepts digit-wise). -/
def isPyDigit (c : Char) : Bool := '0' ≤ c && c ≤ '9'

/-- Numeric value of a digit character. -/
def digitVal (c : Char) : Nat := c.toNat - '0'.toNat

/-- Value of a digit string read in base 10. -/
def digitsVal (l : List Char) : Nat := l.foldl (fun a c => a * 10 + digitVal c) 0

/-- `l` starts with `pre`. -/
def listStartsWith (l pre : List Char) : Bool := List.isPrefixOf pre l

/-- `l` ends with `suf`. -/
def listEndsWith (l suf : List Char) : Bool := List.isSuffixOf suf l

/-- Tail of a Python integer literal after its first digit: digits with
single underscores allowed only between digits (PEP 515, as accepted by
`int()`). -/
def validIntTail : List Char → Bool
  | [] => true
  | c :: rest =>
    if c = '_' then
      match rest with
      | [] => false
      | c2 :: rest2 => isPyDigit c2 && validIntTail rest2
    else isPyDigit c && validIntTail rest

/-- Parse an unsigned Python integer literal (digits, optional internal
underscores).  `none` models `ValueError`. -/
def parseUnsignedInt (l : List Char) : Option Nat :=
  match l with
  | [] => none
  | c :: rest =>
    if isPyDigit c && validIntTail rest then some (digitsVal (l.filter isPyDigit))
    else none

/-- `str.strip()` on a character list. -/
def pyStripChars (l : List Char) : List Char :=
  ((l.dropWhile pyIsSpace).reverse.dropWhile pyIsSpace).reverse

/-- Python `str.strip()`. -/
def pyStrip (s : String) : String := ⟨pyStripChars s.data⟩

/-- Python `int(s)`: strip whitespace, optional sign, digit run with legal
underscores; `none` models `ValueError`. -/
def pythonParseInt (s : String) : Option Int :=
  match pyStripChars s.data with
  | '+' :: rest => (parseUnsignedInt rest).map (fun n => (n : Int))
  | '-' :: rest => (parseUnsignedInt rest).map (fun n => -(n : Int))
  | l => (parseUnsignedInt l).map (fun n => (n : Int))

/-- Python `str.replace` core: replace every non-overlapping occurrence of
`pat` (assumed non-empty at all call sites) left to right.  The first `Nat`
argument counts characters of an already-emitted match still to be skipped,
which keeps the recursion structural on the list. -/
def pyReplaceGo (pat rep : List Char) : Nat → List Char → List Char
  | _ + 1, [] => []
  | skip + 1, _ :: rest => pyReplaceGo pat rep skip rest
  | 0, [] => []
  | 0, c :: rest =>
    if listStartsWith (c :: rest) pat then
      rep ++ pyReplaceGo pat rep (pat.length - 1) rest
    else
      c :: pyReplaceGo pat rep 0 rest

/-- Python `s.replace(pat, rep)` for non-empty `pat`. -/
def pyReplace (s pat rep : String) : String := ⟨pyReplaceGo pat.data rep.data 0 s.data⟩

/-! ## Python path primitives (`posixpath`) -/

/-- Characters after the last `/` (the whole list if there is none). -/
def afterLastSlash (l : List Char) : List Char :=
  (l.reverse.takeWhile (fun c => c ≠ '/')).reverse

/-- `os.path.basename`. -/
def pyBasename (p : String) : String := ⟨afterLastSlash p.data⟩

/-- `os.path.dirname` on a character list: everything before the basename,
with trailing slashes stripped unless the head is all slashes. -/
def dirnameChars (l : List Char) : List Char :=
  let base := afterLastSlash l
  let head := l.take (l.length - base.length)
  if head.all (fun c => c = '/') then head
  else (head.reverse.dropWhile (fun c => c = '/')).reverse

/-- `os.path.dirname`. -/
def pyDirname (p : String) : String := ⟨dirnameChars p.data⟩

/-- `os.path.join` of two components, POSIX semantics. -/
def pyJoinChars (a b : List Char) : List Char :=
  if b.head? = some '/' then b
  else if a = [] then b
  else if a.getLast? = some '/' then a ++ b
  else a ++ '/' :: b

/-- `os.path.join(a, b)`. -/
def pyJoin (a b : String) : String := ⟨pyJoinChars a.data b.data⟩

/-- Stem of `os.path.splitext` applied to a basename `b`: drop the extension
starting at the last dot, unless every character before that dot is a dot. -/
def splitextStemChars (b : List Char) : List Char :=
  let extLen := (b.reverse.takeWhile (fun c => c ≠ '.')).length
  if extLen = b.length then b
  else
    let stem := b.take (b.length - extLen - 1)
    if stem.all (fun c => c = '.') then b else stem

/-- `os.path.splitext(b)[0]` for a basename `b`. -/
def pySplitextStem (b : String) : String := ⟨splitextStemChars b.data⟩

/-- Python `f"{n:06d}"` for a natural number. -/
def padZeros6 (n : Nat) : String :=
  let s := Nat.repr n
  String.mk (List.replicate (6 - s.length) '0') ++ s

/-- Python `f"{i:06d}"` for an integer (sign counts toward the width). -/
def padZeros6Int (i : Int) : String :=
  if i < 0 then
    let s := Nat.repr i.natAbs
    "-" ++ String.mk (List.replicate (5 - s.length) '0') ++ s
  else padZeros6 i.toNat

/-! ## Filesystem model -/

/-- A filesystem fragment: association list from file path to size in bytes. -/
abbrev Fs := List (String × Nat)

/-- `os.path.exists`. -/
def fsExists (fs : Fs) (p : String) : Bool := fs.any (fun e => e.1 == p)

/-- `os.path.getsize` (0 when the path is absent). -/
def fsSize (fs : Fs) (p : String) : Nat :=
  ((fs.find? (fun e => e.1 == p)).map Prod.snd).getD 0

/-- `os.remove`. -/
def fsRemove (fs : Fs) (p : String) : Fs := fs.filter (fun e => e.1 != p)

/-- `shutil.copy2`: overwrite `dst` with the content of `src`. -/
def fsCopy (fs : Fs) (src dst : String) : Fs :=
  fsRemove fs dst ++ [(dst, fsSize fs src)]

/-- `os.rename`: move `src` onto `dst`. -/
def fsRename (fs : Fs) (src dst : String) : Fs :=
  fsRemove (fsRemove fs src) dst ++ [(dst, fsSize fs src)]

/-! ## Frame Sampler and Content Describer (`video_processor.py`)

`synphony/for_clients/video_processor.py` and `synphony/video_processor.py`
contain the same sampling logic (the latter issues its subprocesses and the
OpenAI request asynchronously but awaits each one in turn, so the sequential
embedding covers both); they differ only in the Content Describer's
exception-path fallback string, so that function is embedded twice. -/

/-- A decoded cv2 image as far as the scripts observe it: whether
`cv2.imread` returned `None`, the pixel count `size`, and what
`cv2.imencode`/b64encode produces for it (`none` models an encode failure). -/
structure Frame where
  isNone : Bool
  size : Nat
  encoded : Option String
deriving DecidableEq

/-- One loop iteration's external outcomes in `extract_frames_from_video`:
whether `subprocess.run` on ffmpeg raised, its exit code, whether the output
frame file exists, and the `cv2.imread` result. -/
structure FrameStep where
  ffmpegExn : Option String
  returncode : Int
  fileExists : Bool
  frame : Frame

/-- External-world outcomes for one `extract_frames_from_video` call:
`tempfile.mkdtemp` and the ffprobe `subprocess.run` may raise; ffprobe has an
exit code; `float(stdout.strip())` is abstracted as an optional rational
(`none` models `ValueError`); each ffmpeg iteration has a `FrameStep`. -/
structure ExtractEnv where
  mkdtempExn : Option String
  probeExn : Option String
  probeReturncode : Int
  durationParse : Option ℚ
  steps : Nat → FrameStep

/-- Line 46 of `video_processor.py`:
`time_intervals = [i * duration / num_frames for i in range(num_frames)]`. -/
def time_intervals (duration : ℚ) (num_frames : Nat) : List ℚ :=
  (List.range num_frames).map (fun (i : Nat) => (i : ℚ) * duration / (num_frames : ℚ))

/-- Result of the sampler: the timestamps actually passed to ffmpeg `-ss`
invocations, and the frames returned to the caller. -/
structure ExtractResult where
  requested : List ℚ
  frames : List Frame
deriving DecidableEq

/-- The per-timestamp extraction loop.  Returns the requested timestamps and
`none` for the frames when an iteration raised (the exception propagates to
the function-level handler, which returns `[]`). -/
def extractLoop (steps : Nat → FrameStep) : List (Nat × ℚ) → List ℚ × Option (List Frame)
  | [] => ([], some [])
  | (i, t) :: rest =>
    let st := steps i
    match st.ffmpegExn with
    | some _ => ([t], none)
    | none =>
      let pr := extractLoop steps rest
      let keep := st.returncode == 0 && st.fileExists &&
        !st.frame.isNone && st.frame.size != 0
      (t :: pr.1, pr.2.map (fun fs => if keep then st.frame :: fs else fs))

/-- `extract_frames_from_video(video_path, num_frames)`: probe the duration,
bail out with `[]` on probe failure / unparsable duration / non-positive
duration, otherwise request one frame per computed timestamp; any raised
exception is caught and `[]` returned. -/
def extract_frames_from_video (env : ExtractEnv) (num_frames : Nat) : ExtractResult :=
  match env.mkdtempExn with
  | some _ => ⟨[], []⟩
  | none =>
  match env.probeExn with
  | some _ => ⟨[], []⟩
  | none =>
  if env.probeReturncode = 0 then
    match env.durationParse with
    | none => ⟨[], []⟩
    | some duration =>
      if duration ≤ 0 then ⟨[], []⟩
      else
        let ts := time_intervals duration num_frames
        let pr := extractLoop env.steps ts.enum
        match pr.2 with
        | none => ⟨pr.1, []⟩
        | some frames => ⟨pr.1, frames⟩
  else ⟨[], []⟩

/-- The frame-encoding loop of `analyze_video_with_openai`: skip `None`/empty
frames, attach the data-URL wrapper to each successful base64 encoding, skip
encode failures. -/
def encodedFramesOf (frames : List Frame) : List String :=
  frames.filterMap (fun f =>
    if f.isNone || f.size == 0 then none
    else match f.encoded with
      | some b => some ("data:image/jpeg;base64," ++ b)
      | none => none)

namespace ForClients

/-- `analyze_video_with_openai(frames)` from
`for_clients/video_processor.py`.  `svc` is the OpenAI chat-completion
oracle, fed the encoded frame payloads; `Except.error` models any raised
exception.  Returns the description and whether the service was called. -/
def analyze_video_with_openai (svc : List String → Except String String)
    (frames : List Frame) : String × Bool :=
  if frames.isEmpty then ("a video sequence", false)
  else
    let encoded_frames := encodedFramesOf frames
    if encoded_frames.isEmpty then ("a video sequence", false)
    else
      match svc encoded_frames with
      | .ok content => (pyStrip content, true)
      | .error _ => ("a video sequence with robotic manipulation tasks", true)

end ForClients

namespace AsyncVariant

/-- `analyze_video_with_openai(frames)` from `synphony/video_processor.py`
(the async variant; identical logic, different exception-path fallback). -/
def analyze_video_with_openai (svc : List String → Except String String)
    (frames : List Frame) : String × Bool :=
  if frames.isEmpty then ("a video sequence", false)
  else
    let encoded_frames := encodedFramesOf frames
    if encoded_frames.isEmpty then ("a video sequence", false)
    else
      match svc encoded_frames with
      | .ok content => (pyStrip content, true)
      | .error _ => ("a robot is performing manipulation tasks", true)

end AsyncVariant

/-! ## Augmentation Invoker (`for_clients/video_augmentor.py`) -/

/-- External-world outcomes for one `augment_video` call.  `fs` is the
filesystem state observed after the cosmos-transfer1 subprocess exits;
the txt-cleanup `glob` is evaluated against it. -/
structure AugmentEnv where
  chdirExn : Option String
  portResult : Except String Nat
  runExn : Option String
  returncode : Int
  fs : Fs
  renameExn : Option String
  removeExn : String → Option String

/-- Lines 48-50: strip a trailing `.mp4` from the output basename, since
cosmos-transfer1 appends the extension itself. -/
def cosmos_output_name (output_video_path : String) : String :=
  let output_name := pyBasename output_video_path
  if listEndsWith output_name.data ".mp4".data then
    ⟨output_name.data.take (output_name.data.length - 4)⟩
  else output_name

/-- Does `name` match the glob pattern `base*.txt` (line 95)? -/
def txtMatch (base name : List Char) : Bool :=
  listStartsWith name base && listEndsWith name ".txt".data &&
    decide (base.length + 4 ≤ name.length)

/-- Lines 92-103: best-effort removal of every `{stem}*.txt` file in the
output directory; removal failures are logged and ignored. -/
def txtCleanup (removeExn : String → Option String) (fs : Fs)
    (output_video_path : String) : Fs :=
  let output_dir := pyDirname output_video_path
  let video_basename := pySplitextStem (pyBasename output_video_path)
  let ms := (fs.map Prod.fst).filter (fun p =>
    pyDirname p == output_dir && txtMatch video_basename.data (pyBasename p).data)
  ms.foldl (fun acc p =>
    match removeExn p with
    | some _ => acc
    | none => fsRemove acc p) fs

/-- The `try:` body of `augment_video` (lines 26-108): chdir, pick a free
port, run the tool, then validate/repair/clean up the output.  An
`Except.error` is a Python exception escaping to the outer handler. -/
def augment_video_body (env : AugmentEnv) (output_video_path : String) :
    Except String (Bool × Fs) :=
  match env.chdirExn with
  | some e => .error e
  | none =>
  match env.portResult with
  | .error e => .error e
  | .ok _free_port =>
  let _output_name := cosmos_output_name output_video_path
  match env.runExn with
  | some e => .error e
  | none =>
  if env.returncode = 0 then
    if fsExists env.fs output_video_path then
      .ok (true, txtCleanup env.removeExn env.fs output_video_path)
    else
      let double_ext_path := output_video_path ++ ".mp4"
      if fsExists env.fs double_ext_path then
        match env.renameExn with
        | some e => .error e
        | none =>
          .ok (true, txtCleanup env.removeExn
            (fsRename env.fs double_ext_path output_video_path) output_video_path)
      else .ok (false, env.fs)
  else .ok (false, env.fs)

/-- `augment_video(prompt, input_video_path, output_video_path)` (lines
110-112): any exception from the body is caught and converted to `False`;
the result is the success flag plus the final filesystem state. -/
def augment_video (env : AugmentEnv) (output_video_path : String) : Bool × Fs :=
  match augment_video_body env output_video_path with
  | .ok r => r
  | .error _ => (false, env.fs)

/-! ## Episode Allocator and Dataset Orchestrator
(`for_clients/video_orchestrator.py`) -/

/-- Line 29. -/
def DATASETS_BASE : String := "/root/synphony/datasets"

/-- Does a directory entry match the glob pattern `episode_*.mp4`
(line 33)?  `*` matches any run of non-`/` characters, possibly empty. -/
def epMp4Match (name : List Char) : Bool :=
  listStartsWith name "episode_".data && listEndsWith name ".mp4".data &&
    !(name.contains '/')

/-- The indices recovered from a folder listing by lines 37-44: glob for
`episode_*.mp4`, join with the folder, take the basename, strip the
`episode_` and `.mp4` substrings (every occurrence, as `str.replace` does)
and keep the names `int()` accepts. -/
def parsedEpisodeIndices (video_folder : String) (listing : List String) : List Int :=
  let existing_files := (listing.filter (fun name => epMp4Match name.data)).map
    (fun name => pyJoin video_folder name)
  existing_files.filterMap (fun file =>
    let filename := pyBasename file
    pythonParseInt (pyReplace (pyReplace filename "episode_" "") ".mp4" ""))

/-- `get_next_episode_number(video_folder)` (lines 31-46), with the folder's
directory listing made explicit: `max(parsed) + 1`, or `0` when no file
matches the glob or none of the matches parses. -/
def get_next_episode_number (video_folder : String) (listing : List String) : Int :=
  let existing_files := listing.filter (fun name => epMp4Match name.data)
  if existing_files.isEmpty then 0
  else
    let episode_numbers := parsedEpisodeIndices video_folder listing
    match episode_numbers.max? with
    | some m => m + 1
    | none => 0

/-- `copy_parquet_file(src_episode_num, dest_episode_num, data_folder)`
(lines 48-63): fail without copying when the source is absent; otherwise
copy, with `shutil.copy2` exceptions (`copyExn`) caught and converted to a
failure.  Returns the flag and the resulting filesystem. -/
def copy_parquet_file (copyExn : Option String) (fs : Fs)
    (src_episode_num dest_episode_num : Int) (data_folder : String) : Bool × Fs :=
  let src_parquet := pyJoin data_folder
    ("episode_" ++ padZeros6Int src_episode_num ++ ".parquet")
  let dest_parquet := pyJoin data_folder
    ("episode_" ++ padZeros6Int dest_episode_num ++ ".parquet")
  if fsExists fs src_parquet then
    match copyExn with
    | some _ => (false, fs)
    | none => (true, fsCopy fs src_parquet dest_parquet)
  else (false, fs)

/-- Observable side effects of `process_dataset`: a `copy_parquet_file` call
and an attempted generation (the `total_attempts += 1` path). -/
inductive OrchEffect where
  | copyCall (src dest : Int)
  | generateCall (src dest : String)
deriving DecidableEq

/-- Is an effect an attempted video generation? -/
def OrchEffect.isGenerate : OrchEffect → Bool
  | .generateCall _ _ => true
  | .copyCall _ _ => false

/-- External-world outcomes for one `process_dataset` call. -/
structure OrchEnv where
  /-- `os.path.exists(videos_path)`. -/
  videosPathExists : Bool
  /-- `os.path.exists(data_path)`. -/
  dataPathExists : Bool
  /-- `os.listdir(videos_path)` entries with their `os.path.isdir` status. -/
  videosEntries : List (String × Bool)
  /-- Names present in a given directory (feeds the allocator's glob). -/
  dirListing : String → List String
  /-- The data folder's filesystem fragment (parquet sidecars). -/
  dataFs : Fs
  /-- `os.path.exists` on candidate source video paths. -/
  videoExists : String → Bool
  /-- `generate_video_prompt(src)` result (that function never raises:
  its callees catch all exceptions and fall back to a constant string). -/
  promptOf : String → String
  /-- `augment_video(prompt, src, dest)` outcome; `Except.error` models an
  exception, which `process_dataset` catches and logs (line 154). -/
  augmentOutcome : String → String → String → Except String Bool
  /-- Whether `shutil.copy2` raises for the `i`-th sidecar copy. -/
  copyExn : Nat → Option String

/-- The camera-type folders (line 80-81): listed entries that are
directories whose name starts with `observation.images.`. -/
def observationFoldersOf (env : OrchEnv) : List String :=
  (env.videosEntries.filter (fun d =>
    d.2 && listStartsWith d.1.data "observation.images.".data)).map Prod.fst

/-- `videos/chunk-000` path of a dataset (line 68). -/
def videosPathOf (dataset_name : String) : String :=
  pyJoin (pyJoin (pyJoin DATASETS_BASE dataset_name) "videos") "chunk-000"

/-- `data/chunk-000` path of a dataset (line 69). -/
def dataPathOf (dataset_name : String) : String :=
  pyJoin (pyJoin (pyJoin DATASETS_BASE dataset_name) "data") "chunk-000"

/-- Source sidecar path validated at lines 93-94. -/
def srcParquetPath (dataset_name : String) (i : Nat) : String :=
  pyJoin (dataPathOf dataset_name) ("episode_" ++ padZeros6 i ++ ".parquet")

/-- Source video path probed at line 126. -/
def srcVideoPath (dataset_name obs : String) (i : Nat) : String :=
  pyJoin (pyJoin (videosPathOf dataset_name) obs) ("episode_" ++ padZeros6 i ++ ".mp4")

/-- One inner iteration of the generation loop (lines 122-155): skip a
missing source video, otherwise count an attempt, derive the prompt, call
the invoker, and count a success exactly when it returns `True` (an
exception counts the attempt but not a success).  The accumulator is
`(total_success, total_attempts, effects)`. -/
def genStep (env : OrchEnv) (videos_path : String) (next_episode_num : Int)
    (i : Nat) (obs : String) (acc : Nat × Nat × List OrchEffect) :
    Nat × Nat × List OrchEffect :=
  let obs_path := pyJoin videos_path obs
  let src_video_path := pyJoin obs_path ("episode_" ++ padZeros6 i ++ ".mp4")
  let dest_video_path := pyJoin obs_path
    ("episode_" ++ padZeros6Int (next_episode_num + (i : Int)) ++ ".mp4")
  if env.videoExists src_video_path then
    let (s, a, effs) := acc
    let prompt := env.promptOf src_video_path
    let effs := effs ++ [OrchEffect.generateCall src_video_path dest_video_path]
    match env.augmentOutcome prompt src_video_path dest_video_path with
    | .ok true => (s + 1, a + 1, effs)
    | .ok false => (s, a + 1, effs)
    | .error _ => (s, a + 1, effs)
  else acc

/-- Result of `process_dataset`: the returned boolean, the data folder's
final filesystem, and the trace of copy/generation effects. -/
structure OrchResult where
  ok : Bool
  dataFs : Fs
  effects : List OrchEffect
deriving DecidableEq

/-- `process_dataset(dataset_name, n_episodes)` (lines 65-158): check the
two paths and the camera folders, validate every source sidecar before any
work, copy sidecars for all episodes, then run the generation loops and
report `total_success == total_attempts`. -/
def process_dataset (env : OrchEnv) (dataset_name : String) (n_episodes : Nat) :
    OrchResult :=
  let videos_path := videosPathOf dataset_name
  let data_path := dataPathOf dataset_name
  if !env.videosPathExists then ⟨false, env.dataFs, []⟩
  else if !env.dataPathExists then ⟨false, env.dataFs, []⟩
  else
    let observation_folders := observationFoldersOf env
    if observation_folders.isEmpty then ⟨false, env.dataFs, []⟩
    else if !((List.range n_episodes).all (fun i =>
        fsExists env.dataFs (srcParquetPath dataset_name i))) then
      ⟨false, env.dataFs, []⟩
    else
      let first_obs_path := pyJoin videos_path (observation_folders.headD "")
      let next_episode_num :=
        get_next_episode_number first_obs_path (env.dirListing first_obs_path)
      let copyPhase := (List.range n_episodes).foldl (fun acc i =>
        let r := copy_parquet_file (env.copyExn i) acc.1 (i : Int)
          (next_episode_num + (i : Int)) data_path
        (r.2, acc.2 ++ [OrchEffect.copyCall (i : Int) (next_episode_num + (i : Int))]))
        (env.dataFs, ([] : List OrchEffect))
      let gen := (List.range n_episodes).foldl (fun acc i =>
        observation_folders.foldl
          (fun acc2 obs => genStep env videos_path next_episode_num i obs acc2) acc)
        (0, 0, copyPhase.2)
      ⟨gen.1 == gen.2.1, copyPhase.1, gen.2.2⟩

/-! ## Helper lemmas -/

theorem takeWhile_append_all {α : Type} {p : α → Bool} (l₁ l₂ : List α)
    (h : ∀ c ∈ l₁, p c = true) :
    (l₁ ++ l₂).takeWhile p = l₁ ++ l₂.takeWhile p := by
  induction l₁ with
  | nil => rfl
  | cons c rest ih =>
    simp only [List.cons_append, List.takeWhile_cons, h c (by simp), if_true]
    rw [ih (fun c hc => h c (by simp [hc]))]

theorem afterLastSlash_suffix (l : List Char) : afterLastSlash l <:+ l := by
  unfold afterLastSlash
  have h : (l.reverse.takeWhile (fun c => c ≠ '/')).reverse <:+ l.reverse.reverse :=
    List.reverse_suffix.mpr (List.takeWhile_prefix _)
  simpa using h

theorem afterLastSlash_append_noslash (l m : List Char) (hm : ∀ c ∈ m, c ≠ '/') :
    afterLastSlash (l ++ m) = afterLastSlash l ++ m := by
  unfold afterLastSlash
  rw [List.reverse_append, takeWhile_append_all _ _ (by
    intro c hc
    simp only [decide_eq_true_eq]
    exact hm c (List.mem_reverse.mp hc))]
  simp

theorem listEndsWith_of_suffix {l₁ l₂ suf : List Char} (h : l₁ <:+ l₂)
    (he : listEndsWith l₁ suf = true) : listEndsWith l₂ suf = true := by
  unfold listEndsWith at *
  exact List.isSuffixOf_iff_suffix.mpr ((List.isSuffixOf_iff_suffix.mp he).trans h)

theorem suffix_eq_of_length {l s₁ s₂ : List Char} (h₁ : s₁ <:+ l) (h₂ : s₂ <:+ l)
    (hlen : s₁.length = s₂.length) : s₁ = s₂ := by
  rw [List.suffix_iff_eq_drop] at h₁ h₂
  rw [h₁, h₂, hlen]

theorem not_endsWith_txt_of_endsWith_mp4 {l : List Char}
    (h : listEndsWith l ".mp4".data = true) : listEndsWith l ".txt".data = false := by
  rw [Bool.eq_false_iff]
  intro ht
  have h1 := List.isSuffixOf_iff_suffix.mp h
  have h2 := List.isSuffixOf_iff_suffix.mp ht
  have heq := suffix_eq_of_length h2 h1 (by decide)
  exact absurd heq (by decide)

theorem basename_not_txt {out : String} (h : listEndsWith out.data ".txt".data = false) :
    listEndsWith (pyBasename out).data ".txt".data = false := by
  cases hb : listEndsWith (pyBasename out).data ".txt".data with
  | false => rfl
  | true =>
    exfalso
    have hsuf : (pyBasename out).data <:+ out.data := afterLastSlash_suffix out.data
    have := listEndsWith_of_suffix hsuf hb
    rw [h] at this
    exact Bool.noConfusion this

theorem basename_append_mp4_not_txt (out : String) :
    listEndsWith (pyBasename (out ++ ".mp4")).data ".txt".data = false := by
  apply not_endsWith_txt_of_endsWith_mp4
  have hdata : (pyBasename (out ++ ".mp4")).data =
      afterLastSlash out.data ++ ".mp4".data := by
    show afterLastSlash (out ++ ".mp4").data = _
    rw [String.data_append, afterLastSlash_append_noslash _ _ (by decide)]
  rw [hdata]
  exact List.isSuffixOf_iff_suffix.mpr (List.suffix_append _ _)

theorem ne_append_mp4 (out : String) : out ≠ out ++ ".mp4" := by
  intro h
  have h2 : out.data.length = (out ++ ".mp4").data.length := by rw [← h]
  rw [String.data_append, List.length_append] at h2
  have h4 : ".mp4".data.length = 4 := rfl
  omega

theorem fsExists_remove_ne {p q : String} (h : p ≠ q) (fs : Fs) :
    fsExists (fsRemove fs p) q = fsExists fs q := by
  rw [fsExists, fsRemove, List.any_filter, fsExists]
  congr 1
  funext e
  by_cases he : e.1 = q
  · have hne : (e.1 != p) = true := by
      have : e.1 ≠ p := by rw [he]; exact fun hc => h hc.symm
      simp [bne, this]
    rw [hne, Bool.true_and]
  · have hq : (e.1 == q) = false := beq_eq_false_iff_ne.mpr he
    rw [hq, Bool.and_false]

theorem fsExists_remove_self (fs : Fs) (p : String) :
    fsExists (fsRemove fs p) p = false := by
  rw [Bool.eq_false_iff]
  intro h
  rw [fsExists, List.any_eq_true] at h
  obtain ⟨e, he, hbeq⟩ := h
  rw [fsRemove, List.mem_filter] at he
  have h2 := he.2
  rw [bne] at h2
  rw [hbeq] at h2
  exact Bool.noConfusion h2

theorem fsExists_fsRename_dst (fs : Fs) (src dst : String) :
    fsExists (fsRename fs src dst) dst = true := by
  simp [fsRename, fsExists, List.any_append]

theorem fsExists_fsRename_src (fs : Fs) {src dst : String} (h : dst ≠ src) :
    fsExists (fsRename fs src dst) src = false := by
  rw [fsRename, fsExists, List.any_append]
  have h1 : fsExists (fsRemove (fsRemove fs src) dst) src = false := by
    rw [fsExists_remove_ne h, fsExists_remove_self]
  rw [fsExists] at h1
  rw [h1]
  simp only [Bool.false_or, List.any_cons, List.any_nil, Bool.or_false]
  exact beq_eq_false_iff_ne.mpr h

theorem fsExists_foldl_removeStep (rex : String → Option String) (q : String) :
    ∀ (l : List String) (fs : Fs), (∀ p ∈ l, p ≠ q) →
    fsExists (l.foldl (fun acc p =>
      match rex p with
      | some _ => acc
      | none => fsRemove acc p) fs) q = fsExists fs q := by
  intro l
  induction l with
  | nil => intro fs _; rfl
  | cons p rest ih =>
    intro fs h
    have hp : p ≠ q := h p (by simp)
    have hrest : ∀ r ∈ rest, r ≠ q := fun r hr => h r (by simp [hr])
    rw [List.foldl_cons]
    cases hrex : rex p with
    | some e =>
      simp only [hrex]
      exact ih fs hrest
    | none =>
      simp only [hrex]
      rw [ih _ hrest, fsExists_remove_ne hp]

theorem fsExists_txtCleanup (rex : String → Option String) (fs : Fs) (out q : String)
    (hq : listEndsWith (pyBasename q).data ".txt".data = false) :
    fsExists (txtCleanup rex fs out) q = fsExists fs q := by
  unfold txtCleanup
  apply fsExists_foldl_removeStep
  intro p hp hpq
  subst hpq
  rw [List.mem_filter] at hp
  have h2 := hp.2
  rw [Bool.and_eq_true] at h2
  have h3 := h2.2
  rw [txtMatch, Bool.and_eq_true, Bool.and_eq_true] at h3
  have := h3.1.2
  rw [hq] at this
  exact Bool.noConfusion this

theorem extractLoop_fst_of_noExn (steps : Nat → FrameStep)
    (hs : ∀ i, (steps i).ffmpegExn = none) :
    ∀ l : List (Nat × ℚ), (extractLoop steps l).1 = l.map Prod.snd := by
  intro l
  induction l with
  | nil => rfl
  | cons ht rest ih =>
    obtain ⟨i, t⟩ := ht
    simp only [extractLoop, hs i, List.map_cons]
    rw [ih]

/-! ## Claims -/

/-- Claim C2 (confirmed): whenever the duration probe succeeds with a
parsed duration `d > 0` and `n ≥ 1` frames are requested (and no ffmpeg
invocation raises, so the loop runs to completion), the Frame Sampler
requests exactly `n` extraction timestamps, the `i`-th being `i * d / n`
for `i = 0 .. n-1`. -/
theorem C2_sampler_timestamps (env : ExtractEnv) (n : Nat) (d : ℚ)
    (hm : env.mkdtempExn = none) (hp : env.probeExn = none)
    (hrc : env.probeReturncode = 0) (hd : env.durationParse = some d)
    (hdpos : 0 < d) (hn : 1 ≤ n)
    (hsteps : ∀ i, (env.steps i).ffmpegExn = none) :
    (extract_frames_from_video env n).requested.length = n ∧
    ∀ i, i < n → (extract_frames_from_video env n).requested[i]? =
      some ((i : ℚ) * d / (n : ℚ)) := by
  have hreq : (extract_frames_from_video env n).requested = time_intervals d n := by
    unfold extract_frames_from_video
    rw [hm, hp, hd]
    dsimp only
    rw [if_pos hrc, if_neg (not_le.mpr hdpos)]
    have h1 : (extractLoop env.steps (time_intervals d n).enum).1 =
        (time_intervals d n).enum.map Prod.snd :=
      extractLoop_fst_of_noExn env.steps hsteps _
    cases hres : (extractLoop env.steps (time_intervals d n).enum).2 with
    | none => simp only [hres]; rw [h1, List.enum_map_snd]
    | some frames => simp only [hres]; rw [h1, List.enum_map_snd]
  constructor
  · rw [hreq]
    unfold time_intervals
    rw [List.length_map, List.length_range]
  · intro i hi
    rw [hreq]
    unfold time_intervals
    rw [List.getElem?_map, List.getElem?_range hi]
    rfl

/-- Witness for C2 at a concrete environment: probe exit 0, duration 2,
three frames requested. -/
theorem C2_witness :
    (extract_frames_from_video
      ⟨none, none, 0, some 2, fun _ => ⟨none, 0, true, ⟨false, 1, some "e"⟩⟩⟩
      3).requested.length = 3 ∧
    (extract_frames_from_video
      ⟨none, none, 0, some 2, fun _ => ⟨none, 0, true, ⟨false, 1, some "e"⟩⟩⟩
      3).requested[1]? = some ((1 : ℚ) * 2 / 3) := by
  have h := C2_sampler_timestamps
    ⟨none, none, 0, some 2, fun _ => ⟨none, 0, true, ⟨false, 1, some "e"⟩⟩⟩
    3 2 rfl rfl rfl rfl (by norm_num) (by norm_num) (fun i => rfl)
  exact ⟨h.1, h.2 1 (by norm_num)⟩

/-- Claim C8 (confirmed): when the duration probe exits non-zero, the
duration does not parse, or the parsed duration is ≤ 0, the Frame Sampler
returns an empty sequence and issues no extraction request at all. -/
theorem C8_sampler_bailout (env : ExtractEnv) (n : Nat)
    (h : env.probeReturncode ≠ 0 ∨ env.durationParse = none ∨
      ∃ d, env.durationParse = some d ∧ d ≤ 0) :
    extract_frames_from_video env n = ⟨[], []⟩ := by
  unfold extract_frames_from_video
  cases hm : env.mkdtempExn with
  | some _ => rfl
  | none =>
  cases hp : env.probeExn with
  | some _ => rfl
  | none =>
  dsimp only
  rcases h with h | h | ⟨d, hd, hle⟩
  · rw [if_neg h]
  · by_cases hrc : env.probeReturncode = 0
    · rw [if_pos hrc, h]
    · rw [if_neg hrc]
  · by_cases hrc : env.probeReturncode = 0
    · rw [if_pos hrc, hd]
      dsimp only
      rw [if_pos hle]
    · rw [if_neg hrc]

/-- Witness for C8: non-zero probe exit code. -/
theorem C8_witness :
    extract_frames_from_video
      ⟨none, none, 1, some 5, fun _ => ⟨none, 0, true, ⟨false, 1, some "e"⟩⟩⟩ 6 =
      ⟨[], []⟩ :=
  C8_sampler_bailout _ 6 (Or.inl (by decide))

/-- Claim C5 (confirmed): both Content Describer variants, given an empty
frame sequence, return the fixed fallback string `"a video sequence"` and
never call the vision service, whatever the service oracle would do. -/
theorem C5_describer_empty (svc : List String → Except String String) :
    ForClients.analyze_video_with_openai svc [] = ("a video sequence", false) ∧
    AsyncVariant.analyze_video_with_openai svc [] = ("a video sequence", false) :=
  ⟨rfl, rfl⟩

/-- Witness for C5 at a concrete service oracle. -/
theorem C5_witness :
    ForClients.analyze_video_with_openai (fun _ => .ok "desc") [] =
      ("a video sequence", false) ∧
    AsyncVariant.analyze_video_with_openai (fun _ => .ok "desc") [] =
      ("a video sequence", false) :=
  C5_describer_empty (fun _ => .ok "desc")

/-- Claim C7 (confirmed): when the source parquet for `src_episode_num` does
not exist, `copy_parquet_file` returns failure and leaves the filesystem
untouched (no destination file created, nothing else changed), raising
nothing. -/
theorem C7_copy_missing_source (copyExn : Option String) (fs : Fs)
    (src_episode_num dest_episode_num : Int) (data_folder : String)
    (h : fsExists fs (pyJoin data_folder
      ("episode_" ++ padZeros6Int src_episode_num ++ ".parquet")) = false) :
    copy_parquet_file copyExn fs src_episode_num dest_episode_num data_folder =
      (false, fs) := by
  unfold copy_parquet_file
  dsimp only
  rw [h]
  simp

/-- Witness for C7: empty-ish filesystem without the source parquet. -/
theorem C7_witness :
    copy_parquet_file none [("x", 1)] 1 2 "/d" = (false, [("x", 1)]) :=
  C7_copy_missing_source none [("x", 1)] 1 2 "/d" (by decide)

/-- Claim C9 (confirmed): `augment_video` is a total boolean-returning
function; whenever its `try:` body raises (any exception, anywhere in the
sequence), the exception is swallowed and the result is failure with the
filesystem untouched. -/
theorem C9_never_raises (env : AugmentEnv) (out : String) (e : String)
    (h : augment_video_body env out = .error e) :
    augment_video env out = (false, env.fs) := by
  unfold augment_video
  rw [h]

/-- Witness for C9: `os.chdir` raising. -/
theorem C9_witness :
    augment_video ⟨some "boom", .ok 1, none, 0, [], none, fun _ => none⟩ "out.mp4" =
      (false, []) :=
  C9_never_raises ⟨some "boom", .ok 1, none, 0, [], none, fun _ => none⟩
    "out.mp4" "boom" rfl

/-- Claim C4 (confirmed): `get_next_episode_number` returns 0 when no file
in the directory matches the episode naming convention, and otherwise one
plus the maximum of the integer indices parsed from the matching filenames
(unparseable names being ignored); in particular it returns 0 on an empty
directory and 4 on `[episode_000000.mp4, episode_000003.mp4]` (also with an
unparseable `episode_abc.mp4` present). -/
theorem C4_next_episode_number (video_folder : String) (listing : List String) :
    ((listing.filter (fun name => epMp4Match name.data)) = [] →
      get_next_episode_number video_folder listing = 0) ∧
    (∀ m : Int, (parsedEpisodeIndices video_folder listing).max? = some m →
      get_next_episode_number video_folder listing = m + 1) ∧
    get_next_episode_number video_folder [] = 0 ∧
    get_next_episode_number "videos" ["episode_000000.mp4", "episode_000003.mp4"] = 4 ∧
    get_next_episode_number "videos"
      ["episode_abc.mp4", "episode_000003.mp4", "notes.txt"] = 4 := by
  refine ⟨?_, ?_, rfl, by decide, by decide⟩
  · intro h
    unfold get_next_episode_number
    rw [h]
    rfl
  · intro m hm
    unfold get_next_episode_number
    by_cases he : (listing.filter (fun name => epMp4Match name.data)).isEmpty = true
    · exfalso
      rw [List.isEmpty_iff] at he
      have hnil : parsedEpisodeIndices video_folder listing = [] := by
        unfold parsedEpisodeIndices
        rw [he]
        rfl
      rw [hnil] at hm
      exact Option.noConfusion hm
    · rw [if_neg he]
      dsimp only
      rw [hm]

/-- Witness for C4: the allocator's two example directories. -/
theorem C4_witness :
    get_next_episode_number "videos" ["episode_000000.mp4", "episode_000003.mp4"] = 4 ∧
    get_next_episode_number "videos" [] = 0 := by
  refine ⟨(C4_next_episode_number "videos"
    ["episode_000000.mp4", "episode_000003.mp4"]).2.2.2.1, ?_⟩
  exact (C4_next_episode_number "videos" []).1 (by decide)

/-- Counterexample to claim C1 as stated: with exit code 0 and an existing
but zero-byte destination file, `augment_video` returns success while the
destination has size 0 — the code checks existence but never the size. -/
theorem C1_counterexample :
    ¬ ((augment_video
        ⟨none, .ok 29500, none, 0, [("videos/episode_000000.mp4", 0)], none,
          fun _ => none⟩
        "videos/episode_000000.mp4").1 = true →
      0 < fsSize (augment_video
        ⟨none, .ok 29500, none, 0, [("videos/episode_000000.mp4", 0)], none,
          fun _ => none⟩
        "videos/episode_000000.mp4").2 "videos/episode_000000.mp4") := by
  decide

/-- Claim C1 (corrected): for any destination path that does not end in
`.txt` (in particular every real `.mp4` destination), success of
`augment_video` guarantees that the destination file exists in the final
filesystem state — but not that it is non-empty. -/
theorem C1_success_dest_exists (env : AugmentEnv) (out : String)
    (htxt : listEndsWith out.data ".txt".data = false)
    (hs : (augment_video env out).1 = true) :
    fsExists (augment_video env out).2 out = true := by
  obtain ⟨c, pr, re, rc, fs, ren, rem⟩ := env
  unfold augment_video augment_video_body at hs ⊢
  dsimp only at hs ⊢
  cases c with
  | some e => exact Bool.noConfusion hs
  | none =>
  cases pr with
  | error e => exact Bool.noConfusion hs
  | ok k =>
  cases re with
  | some e => exact Bool.noConfusion hs
  | none =>
  by_cases hrc : rc = 0
  · rw [if_pos hrc] at hs ⊢
    by_cases hex : fsExists fs out = true
    · rw [if_pos hex] at hs ⊢
      show fsExists (txtCleanup rem fs out) out = true
      rw [fsExists_txtCleanup _ _ _ _ (basename_not_txt htxt)]
      exact hex
    · rw [if_neg hex] at hs ⊢
      by_cases hdd : fsExists fs (out ++ ".mp4") = true
      · rw [if_pos hdd] at hs ⊢
        cases ren with
        | some e => exact Bool.noConfusion hs
        | none =>
          show fsExists
            (txtCleanup rem (fsRename fs (out ++ ".mp4") out) out) out = true
          rw [fsExists_txtCleanup _ _ _ _ (basename_not_txt htxt)]
          exact fsExists_fsRename_dst fs _ out
      · rw [if_neg hdd] at hs
        exact Bool.noConfusion hs
  · rw [if_neg hrc] at hs
    exact Bool.noConfusion hs

/-- Witness for the corrected C1 at a concrete input: an existing (7-byte)
destination after exit code 0. -/
theorem C1_witness :
    fsExists (augment_video
      ⟨none, .ok 29500, none, 0, [("videos/episode_000000.mp4", 7)], none,
        fun _ => none⟩
      "videos/episode_000000.mp4").2 "videos/episode_000000.mp4" = true :=
  C1_success_dest_exists
    ⟨none, .ok 29500, none, 0, [("videos/episode_000000.mp4", 7)], none,
      fun _ => none⟩
    "videos/episode_000000.mp4" (by decide) (by decide)

/-- Claim C6 (confirmed; destination restricted to paths not ending in
`.txt`, which covers every real `.mp4` destination): on exit code 0 with
the expected destination absent, if the doubled-extension file exists the
invoker renames it into place (afterwards the destination exists and the
doubled-extension path does not) and returns success; if neither file
exists it returns failure with the filesystem untouched. -/
theorem C6_double_extension_repair (env : AugmentEnv) (out : String)
    (hc : env.chdirExn = none) (hpr : ∃ k, env.portResult = .ok k)
    (hr : env.runExn = none) (hrc : env.returncode = 0)
    (hdest : fsExists env.fs out = false)
    (htxt : listEndsWith out.data ".txt".data = false)
    (hren : env.renameExn = none) :
    (fsExists env.fs (out ++ ".mp4") = true →
      (augment_video env out).1 = true ∧
      fsExists (augment_video env out).2 out = true ∧
      fsExists (augment_video env out).2 (out ++ ".mp4") = false) ∧
    (fsExists env.fs (out ++ ".mp4") = false →
      augment_video env out = (false, env.fs)) := by
  obtain ⟨c, pr, re, rc, fs, ren, rem⟩ := env
  obtain ⟨k, hk⟩ := hpr
  dsimp only at hc hr hrc hdest hren hk ⊢
  subst hc hr hren hrc hk
  unfold augment_video augment_video_body
  dsimp only
  rw [if_pos (show (0 : Int) = 0 from rfl), if_neg (Bool.eq_false_iff.mp hdest)]
  constructor
  · intro hdd
    rw [if_pos hdd]
    refine ⟨rfl, ?_, ?_⟩
    · rw [fsExists_txtCleanup _ _ _ _ (basename_not_txt htxt)]
      exact fsExists_fsRename_dst fs _ out
    · rw [fsExists_txtCleanup _ _ _ _ (basename_append_mp4_not_txt out)]
      exact fsExists_fsRename_src fs (ne_append_mp4 out)
  · intro hdd
    rw [if_neg (Bool.eq_false_iff.mp hdd)]

/-- Witness for C6: exit code 0, only `…episode_000001.mp4.mp4` present. -/
theorem C6_witness :
    (augment_video
      ⟨none, .ok 29500, none, 0, [("videos/episode_000001.mp4.mp4", 5)], none,
        fun _ => none⟩
      "videos/episode_000001.mp4").1 = true ∧
    fsExists (augment_video
      ⟨none, .ok 29500, none, 0, [("videos/episode_000001.mp4.mp4", 5)], none,
        fun _ => none⟩
      "videos/episode_000001.mp4").2 "videos/episode_000001.mp4" = true := by
  have h := (C6_double_extension_repair
    ⟨none, .ok 29500, none, 0, [("videos/episode_000001.mp4.mp4", 5)], none,
      fun _ => none⟩
    "videos/episode_000001.mp4" rfl ⟨29500, rfl⟩ rfl rfl (by decide) (by decide)
    rfl).1 (by decide)
  exact ⟨h.1, h.2.1⟩

/-- Claim C3 (confirmed): if any source sidecar for indices
`0..n_episodes-1` is missing, `process_dataset` returns failure before
doing any work — the data folder is unchanged and the effect trace is
empty (no sidecar copy, no generation attempt). -/
theorem C3_validation_aborts (env : OrchEnv) (dataset_name : String)
    (n_episodes : Nat)
    (h : ∃ i, i < n_episodes ∧
      fsExists env.dataFs (srcParquetPath dataset_name i) = false) :
    process_dataset env dataset_name n_episodes = ⟨false, env.dataFs, []⟩ := by
  obtain ⟨i, hi, hmiss⟩ := h
  have hall : ((List.range n_episodes).all (fun i =>
      fsExists env.dataFs (srcParquetPath dataset_name i))) = false := by
    rw [Bool.eq_false_iff]
    intro hall
    rw [List.all_eq_true] at hall
    have hx := hall i (List.mem_range.mpr hi)
    rw [hmiss] at hx
    exact Bool.noConfusion hx
  unfold process_dataset
  dsimp only
  cases hv : env.videosPathExists with
  | false => rfl
  | true =>
  cases hd : env.dataPathExists with
  | false => rfl
  | true =>
  cases ho : (observationFoldersOf env).isEmpty with
  | true => rfl
  | false =>
  rw [hall]
  rfl

/-- Witness for C3: one requested episode, empty data folder. -/
theorem C3_witness :
    process_dataset
      ⟨true, true, [("observation.images.cam", true)], fun _ => [], [],
        fun _ => false, fun _ => "p", fun _ _ _ => .ok true, fun _ => none⟩
      "ds" 1 = ⟨false, [], []⟩ :=
  C3_validation_aborts
    ⟨true, true, [("observation.images.cam", true)], fun _ => [], [],
      fun _ => false, fun _ => "p", fun _ _ _ => .ok true, fun _ => none⟩
    "ds" 1 ⟨0, by norm_num, rfl⟩

theorem genStep_missing (env : OrchEnv) (videos_path : String) (next : Int)
    (i : Nat) (obs : String) (acc : Nat × Nat × List OrchEffect)
    (h : env.videoExists (pyJoin (pyJoin videos_path obs)
      ("episode_" ++ padZeros6 i ++ ".mp4")) = false) :
    genStep env videos_path next i obs acc = acc := by
  unfold genStep
  dsimp only
  rw [h]
  rfl

theorem genFold_inner_id (env : OrchEnv) (videos_path : String) (next : Int)
    (i : Nat) (obsList : List String) :
    ∀ (acc : Nat × Nat × List OrchEffect),
    (∀ obs ∈ obsList, env.videoExists (pyJoin (pyJoin videos_path obs)
      ("episode_" ++ padZeros6 i ++ ".mp4")) = false) →
    obsList.foldl (fun acc2 obs => genStep env videos_path next i obs acc2) acc
      = acc := by
  induction obsList with
  | nil => intro acc _; rfl
  | cons o orest oih =>
    intro acc h
    rw [List.foldl_cons, genStep_missing env _ _ _ _ _ (h o (by simp))]
    exact oih acc (fun obs hobs => h obs (by simp [hobs]))

theorem genFold_outer_id (env : OrchEnv) (videos_path : String) (next : Int)
    (obsList : List String) (idxs : List Nat) :
    ∀ (acc : Nat × Nat × List OrchEffect),
    (∀ i ∈ idxs, ∀ obs ∈ obsList,
      env.videoExists (pyJoin (pyJoin videos_path obs)
        ("episode_" ++ padZeros6 i ++ ".mp4")) = false) →
    idxs.foldl (fun acc i => obsList.foldl
      (fun acc2 obs => genStep env videos_path next i obs acc2) acc) acc = acc := by
  induction idxs with
  | nil => intro acc _; rfl
  | cons j rest ih =>
    intro acc h
    rw [List.foldl_cons, genFold_inner_id env videos_path next j obsList acc
      (fun obs hobs => h j (by simp) obs hobs)]
    exact ih acc (fun i hi obs hobs => h i (by simp [hi]) obs hobs)

theorem copyFold_effects (env : OrchEnv) (data_path : String) (next : Int)
    (idxs : List Nat) (st : Fs × List OrchEffect)
    (h : ∀ e ∈ st.2, e.isGenerate = false) :
    ∀ e ∈ (idxs.foldl (fun acc i =>
      ((copy_parquet_file (env.copyExn i) acc.1 (i : Int)
          (next + (i : Int)) data_path).2,
        acc.2 ++ [OrchEffect.copyCall (i : Int) (next + (i : Int))])) st).2,
      e.isGenerate = false := by
  induction idxs generalizing st with
  | nil => exact h
  | cons j rest ih =>
    rw [List.foldl_cons]
    apply ih
    intro e he
    rw [List.mem_append] at he
    rcases he with he | he
    · exact h e he
    · rw [List.mem_singleton] at he
      subst he
      rfl

/-- Claim C10 (confirmed): when the path checks, camera-folder discovery and
sidecar validation all pass but every (episode, camera) source video is
missing, every pair is skipped, zero generations are attempted, and
`process_dataset` still reports success (`total_success == total_attempts`
with both counters 0); the effect trace holds no generation attempt. -/
theorem C10_vacuous_success (env : OrchEnv) (dataset_name : String)
    (n_episodes : Nat)
    (h1 : env.videosPathExists = true) (h2 : env.dataPathExists = true)
    (h3 : (observationFoldersOf env).isEmpty = false)
    (h4 : ∀ i, i < n_episodes →
      fsExists env.dataFs (srcParquetPath dataset_name i) = true)
    (h5 : ∀ i, i < n_episodes → ∀ obs ∈ observationFoldersOf env,
      env.videoExists (srcVideoPath dataset_name obs i) = false) :
    (process_dataset env dataset_name n_episodes).ok = true ∧
    ∀ e ∈ (process_dataset env dataset_name n_episodes).effects,
      e.isGenerate = false := by
  have hall : ((List.range n_episodes).all (fun i =>
      fsExists env.dataFs (srcParquetPath dataset_name i))) = true := by
    rw [List.all_eq_true]
    intro i hi
    exact h4 i (List.mem_range.mp hi)
  unfold process_dataset
  dsimp only
  rw [h1, h2, h3, hall]
  rw [if_neg (by decide), if_neg (by decide), if_neg (by decide),
    if_neg (by decide)]
  rw [genFold_outer_id env (videosPathOf dataset_name) _ (observationFoldersOf env)
    (List.range n_episodes) _
    (fun i hi obs hobs => h5 i (List.mem_range.mp hi) obs hobs)]
  refine ⟨rfl, ?_⟩
  exact copyFold_effects env (dataPathOf dataset_name) _ (List.range n_episodes)
    (env.dataFs, []) (fun e he => absurd he (List.not_mem_nil e))

/-- Witness for C10: one episode, one camera folder, sidecar present,
source video absent. -/
theorem C10_witness :
    (process_dataset
      ⟨true, true, [("observation.images.cam", true)], fun _ => [],
        [("/root/synphony/datasets/ds/data/chunk-000/episode_000000.parquet", 1)],
        fun _ => false, fun _ => "p", fun _ _ _ => .ok true, fun _ => none⟩
      "ds" 1).ok = true :=
  (C10_vacuous_success
    ⟨true, true, [("observation.images.cam", true)], fun _ => [],
      [("/root/synphony/datasets/ds/data/chunk-000/episode_000000.parquet", 1)],
      fun _ => false, fun _ => "p", fun _ _ _ => .ok true, fun _ => none⟩
    "ds" 1 rfl rfl rfl
    (by decide)
    (fun i _ obs _ => rfl)).1
